import Mathlib

/-
A shallow embedding of the DevSmith Python logging SDK:
  * the canonical SDK module `docs/integrations/python/logger.py`
    (class `DevSmithLogger`), and
  * the inlined copy embedded in the sample application
    `docs/integration-examples/tests/sample-apps/flask-app/app.py`
    (also named `DevSmithLogger`; modelled here under `flask*` names).

Log entries are Python dicts; they are embedded as a small JSON value type.
Both classes guard their buffer with a `threading.Lock`, which in Python is
NOT reentrant: a thread that acquires it while already holding it blocks
forever.  Each operation therefore takes an explicit `held : Bool` recording
whether the calling context already holds the instance lock, and returns an
`Option` result where `none` models that the operation never returns
(deadlock on the second acquisition of the lock).
-/

namespace DevSmith

/-- JSON-like values, the shape of the Python dict log entries. -/
inductive JVal where
  | str (s : String)
  | num (n : Int)
  | arr (xs : List JVal)
  | obj (kvs : List (String × JVal))

/-- Keys of a dict value (empty for non-objects). -/
def entryKeys : JVal → List String
  | .obj kvs => kvs.map Prod.fst
  | _ => []

/-- Look up a key in a dict value. -/
def entryField (k : String) : JVal → Option JVal
  | .obj kvs => (kvs.find? (fun kv => kv.fst == k)).map Prod.snd
  | _ => none

/-- The `message` field of an entry, projected to `String` so that
statements about entry order live in a decidable domain. -/
def entryMessageStr (e : JVal) : Option String :=
  match entryField "message" e with
  | some (.str s) => some s
  | _ => none

/-- Python `s.rstrip("/")`: remove every trailing `/` character
(`logger.py` line 47, `self.api_url = api_url.rstrip('/')`). -/
def rstripSlash (s : String) : String :=
  String.mk ((s.data.reverse.dropWhile (fun c => c == '/')).reverse)

/-- Configuration state a successfully constructed canonical
`DevSmithLogger` carries (`logger.py` lines 46-51).  The float
`flush_interval` is modelled in whole time-units. -/
structure Config where
  api_key : String
  api_url : String
  project_slug : String
  service_name : String
  batch_size : Nat
  flush_interval : Nat
deriving DecidableEq

/-- Constructor of the canonical `DevSmithLogger` (`logger.py` lines 29-61):
`api_key`, `project_slug` and `service_name` are validated to be non-empty
(Python truthiness on strings) before any state is set up; `api_url` is
stored with trailing slashes stripped. -/
def DevSmithLogger.init (api_key api_url project_slug service_name : String)
    (batch_size flush_interval : Nat) : Except String Config :=
  if api_key = "" then .error "DevSmithLogger: api_key is required"
  else if project_slug = "" then .error "DevSmithLogger: project_slug is required"
  else if service_name = "" then .error "DevSmithLogger: service_name is required"
  else .ok ⟨api_key, rstripSlash api_url, project_slug, service_name,
            batch_size, flush_interval⟩

/-- Whether construction succeeded. -/
def initOk (api_key api_url project_slug service_name : String)
    (batch_size flush_interval : Nat) : Bool :=
  match DevSmithLogger.init api_key api_url project_slug service_name
      batch_size flush_interval with
  | .ok _ => true
  | .error _ => false

/-- URL the canonical `flush` posts to (`logger.py` line 113,
`f'{self.api_url}/api/logs/batch'`). -/
def requestUrl (c : Config) : String := c.api_url ++ "/api/logs/batch"

/-- Request URL of a logger built from the given constructor arguments,
`none` when construction fails. -/
def initRequestUrl (api_key api_url project_slug service_name : String)
    (batch_size flush_interval : Nat) : Option String :=
  (DevSmithLogger.init api_key api_url project_slug service_name
      batch_size flush_interval).toOption.map requestUrl

/-- Outcome of the network send in the canonical `flush`
(`logger.py` lines 111-129): `requests.post` either returns a response with
some status code, or raises a `requests.exceptions.RequestException`
(connection refused, timeout, DNS failure). -/
inductive SendOutcome where
  | response (status : Nat)
  | exception

/-- The delivered-successfully classification of `logger.py` line 119:
a transport-level response with status 200 or 201. -/
def delivered : SendOutcome → Bool
  | .response s => s == 200 || s == 201
  | .exception => false

/-- Canonical `DevSmithLogger.flush` (`logger.py` lines 92-129), executed by
a context that holds the instance lock iff `held`.  `during` is the list of
entries other producers append to the buffer while the network send is in
flight (the lock is released during the send); it is irrelevant when no send
happens.  Returns `(buffer after, batches posted)`, or `none` on deadlock:
the first statement of `flush` is `with self.lock:`, and `threading.Lock`
is not reentrant, so entering `flush` with the lock already held blocks
forever.  On a non-(200|201) status or a transport exception the snapshot
is re-added with `self.buffer.extend(logs)`, i.e. appended AFTER whatever
the buffer now contains. -/
def flush (held : Bool) (buffer : List JVal) (o : SendOutcome)
    (during : List JVal) : Option (List JVal × List (List JVal)) :=
  if held then none
  else if buffer.isEmpty then some (buffer, [])
  else
    let logs := buffer
    -- self.buffer.clear(); the lock is released; the POST is issued;
    -- meanwhile other producers may append `during`
    match o with
    | .response s =>
        if s == 200 || s == 201 then some (during, [logs])
        else some (during ++ logs, [logs])
    | .exception => some (during ++ logs, [logs])

/-- The entry dict built by the canonical `log` (`logger.py` lines 77-83):
keys `timestamp` (wall-clock ISO string plus a literal `Z`), `level`
(upper-cased), `message`, `service`, `context` (the keyword arguments).
There is no `tags` key. -/
def mkEntry (ts level message service : String)
    (context : List (String × JVal)) : JVal :=
  .obj [("timestamp", .str (ts ++ "Z")),
        ("level", .str level.toUpper),
        ("message", .str message),
        ("service", .str service),
        ("context", .obj context)]

/-- Canonical `DevSmithLogger.log` (`logger.py` lines 75-90).  Under
`with self.lock:` it appends the new entry and, if the buffer length has
reached `batch_size`, calls `self.flush()` while still holding the
non-reentrant lock — which is modelled by invoking `flush` with
`held = true`. -/
def log (cfg : Config) (held : Bool) (buffer : List JVal)
    (ts level message : String) (context : List (String × JVal))
    (o : SendOutcome) : Option (List JVal × List (List JVal)) :=
  if held then none
  else
    let entry := mkEntry ts level message cfg.service_name context
    let buffer := buffer ++ [entry]
    if cfg.batch_size ≤ buffer.length then
      flush true buffer o []
    else
      some (buffer, [])

/-- Result of one firing of the canonical flush timer.  `_start_timer`
(`logger.py` lines 63-73) arms a `threading.Timer(self.flush_interval,
flush_periodically)`; the callback runs `with self.lock: if self.buffer:
self.flush()` and then `self._start_timer()`. -/
inductive TickResult where
  | rescheduled (delay : Nat)
  | deadlocked
deriving DecidableEq

/-- One firing of the canonical timer callback `flush_periodically`
(`logger.py` lines 65-69).  With an empty buffer the guarded block is a
no-op and `_start_timer()` re-arms the timer for another `flush_interval`.
With a non-empty buffer the callback calls `self.flush()` while holding the
non-reentrant lock, so it blocks forever inside the `with self.lock:` block
and the rescheduling line is never reached. -/
def flushPeriodically (flushInterval : Nat) (buffer : List JVal) : TickResult :=
  if buffer.isEmpty then TickResult.rescheduled flushInterval
  else TickResult.deadlocked

/-- Result of a Python-level call to a logging method, distinguishing the
`TypeError` Python raises at argument-binding time (before the method body
runs, leaving the buffer untouched) from a completed call and from a
deadlocked one. -/
inductive CallResult where
  | typeError (buffer : List JVal)
  | ok (buffer : List JVal) (sent : List (List JVal))
  | deadlock

/-- A Python call `logger.log(level, message, **context)` against
`def log(self, level, message, **context)` (`logger.py` line 75).  Context
can only be passed as keyword arguments; a keyword named like one of the
explicit parameters `level` or `message` collides with the positional value
and Python raises `TypeError: got multiple values for argument ...` before
the body runs. -/
def callLog (cfg : Config) (held : Bool) (buffer : List JVal)
    (ts level message : String) (kwargs : List (String × JVal))
    (o : SendOutcome) : CallResult :=
  if kwargs.any (fun kv => kv.fst == "level" || kv.fst == "message") then
    CallResult.typeError buffer
  else
    match log cfg held buffer ts level message kwargs o with
    | none => CallResult.deadlock
    | some (b, s) => CallResult.ok b s

/-- A Python call `logger.debug(message, **context)` against
`def debug(self, message, **context)` (`logger.py` line 132): a `message`
keyword collides at this binding; otherwise the body forwards to
`self.log('DEBUG', message, **context)`, where a `level` keyword would
collide in turn. -/
def callDebug (cfg : Config) (held : Bool) (buffer : List JVal)
    (ts message : String) (kwargs : List (String × JVal))
    (o : SendOutcome) : CallResult :=
  if kwargs.any (fun kv => kv.fst == "message") then
    CallResult.typeError buffer
  else callLog cfg held buffer ts "DEBUG" message kwargs o

/-- Python call to `info` (`logger.py` line 135); see `callDebug`. -/
def callInfo (cfg : Config) (held : Bool) (buffer : List JVal)
    (ts message : String) (kwargs : List (String × JVal))
    (o : SendOutcome) : CallResult :=
  if kwargs.any (fun kv => kv.fst == "message") then
    CallResult.typeError buffer
  else callLog cfg held buffer ts "INFO" message kwargs o

/-- Python call to `warn` (`logger.py` line 138); see `callDebug`. -/
def callWarn (cfg : Config) (held : Bool) (buffer : List JVal)
    (ts message : String) (kwargs : List (String × JVal))
    (o : SendOutcome) : CallResult :=
  if kwargs.any (fun kv => kv.fst == "message") then
    CallResult.typeError buffer
  else callLog cfg held buffer ts "WARN" message kwargs o

/-- Python call to `error` (`logger.py` line 141); see `callDebug`. -/
def callError (cfg : Config) (held : Bool) (buffer : List JVal)
    (ts message : String) (kwargs : List (String × JVal))
    (o : SendOutcome) : CallResult :=
  if kwargs.any (fun kv => kv.fst == "message") then
    CallResult.typeError buffer
  else callLog cfg held buffer ts "ERROR" message kwargs o

/-- The methods defined on the canonical `DevSmithLogger` class
(`logger.py` lines 28-142), in source order. -/
def canonicalMethods : List String :=
  ["__init__", "_start_timer", "log", "flush", "debug", "info", "warn", "error"]

/-- The methods defined on the `DevSmithLogger` class inlined in the flask
sample application (`app.py` lines 16-92), in source order. -/
def flaskLoggerMethods : List String :=
  ["__init__", "_schedule_flush", "flush", "_log", "debug", "info", "warn", "error"]

/- ## The inlined copy in the flask sample application -/

/-- Configuration state of the flask-app `DevSmithLogger`
(`app.py` lines 17-27).  Note the different argument order
(`api_url` first) and the name `buffer_size` for the threshold; the
constructor performs NO validation and stores `api_url` verbatim. -/
structure FlaskConfig where
  api_url : String
  api_key : String
  project_slug : String
  service_name : String
  buffer_size : Nat
  flush_interval : Nat
deriving DecidableEq

/-- Constructor of the flask-app `DevSmithLogger` (`app.py` lines 17-27):
it unconditionally stores its arguments; there is no emptiness check. -/
def flaskInit (api_url api_key project_slug service_name : String)
    (buffer_size flush_interval : Nat) : FlaskConfig :=
  ⟨api_url, api_key, project_slug, service_name, buffer_size, flush_interval⟩

/-- Outcome of `urllib.request.urlopen(req, timeout=5)` in the flask-app
`flush` (`app.py` line 60): it either returns, or raises (`URLError`,
`HTTPError` — raised for every non-2xx status — or a timeout). -/
inductive FlaskOutcome where
  | ok
  | raised

/-- State of the flask-app one-shot flush timer (`self.flush_timer`). -/
inductive TimerState where
  | unset
  | armed (delay : Nat)
deriving DecidableEq

/-- Flask-app `DevSmithLogger.flush` (`app.py` lines 36-62).  As in the
canonical copy, entering with the lock held deadlocks on `with self.lock:`.
After the snapshot-and-clear, any exception from serialization or
`urlopen` is caught by `except Exception` and only printed: the cleared
batch is never re-added to the buffer. -/
def flaskFlush (held : Bool) (buffer : List JVal) (o : FlaskOutcome) :
    Option (List JVal × List (List JVal)) :=
  if held then none
  else if buffer.isEmpty then some (buffer, [])
  else
    let batch := buffer
    -- self.buffer.clear(); one POST of `batch` is attempted
    match o with
    | .ok => some ([], [batch])
    | .raised => some ([], [batch])

/-- The entry dict built by the flask-app `_log` (`app.py` lines 65-72):
unlike the canonical copy it has a `tags` key, and `context or {}` /
`tags or []` default absent arguments to empty; `level` is stored as
passed (the wrappers pass upper-case literals). -/
def flaskMkEntry (ts level message service : String)
    (context : Option (List (String × JVal))) (tags : Option (List String)) :
    JVal :=
  .obj [("timestamp", .str (ts ++ "Z")),
        ("level", .str level),
        ("message", .str message),
        ("service", .str service),
        ("context", .obj (context.getD [])),
        ("tags", .arr ((tags.getD []).map JVal.str))]

/-- Flask-app `DevSmithLogger._log` (`app.py` lines 64-80).  Under
`with self.lock:` it appends; at the `buffer_size` threshold it calls
`self.flush()` while still holding the non-reentrant lock (deadlock);
otherwise it calls `_schedule_flush`, which cancels any pending timer and
arms a fresh one-shot `threading.Timer(self.flush_interval, self.flush)`
(`app.py` lines 29-34) — so every sub-threshold `_log` call re-arms the
timer for a full `flush_interval` from now. -/
def flaskLog (cfg : FlaskConfig) (held : Bool) (buffer : List JVal)
    (timer : TimerState) (ts level message : String)
    (context : Option (List (String × JVal))) (tags : Option (List String))
    (o : FlaskOutcome) : Option (List JVal × TimerState) :=
  if held then none
  else
    let entry := flaskMkEntry ts level message cfg.service_name context tags
    let buffer := buffer ++ [entry]
    if cfg.buffer_size ≤ buffer.length then
      match flaskFlush true buffer o with
      | none => none
      | some (b, _) => some (b, timer)
    else
      some (buffer, TimerState.armed cfg.flush_interval)

/- ## Sample configurations and entries used in concrete statements -/

/-- A canonical logger with batch size 1. -/
def cfg1 : Config := ⟨"k", "http://h", "p", "svc", 1, 5⟩

/-- A canonical logger with batch size 2. -/
def cfg2 : Config := ⟨"k", "http://h", "p", "svc", 2, 5⟩

/-- A canonical logger with the default batch size 100. -/
def cfg100 : Config := ⟨"k", "http://h", "p", "svc", 100, 5⟩

/-- A flask-app logger with the default buffer size 100. -/
def fcfg : FlaskConfig := flaskInit "http://h" "k" "p" "fsvc" 100 5

/-- A canonical entry, message "old". -/
def eOld : JVal := mkEntry "t1" "INFO" "old" "svc" []

/-- A canonical entry, message "new". -/
def eNew : JVal := mkEntry "t2" "INFO" "new" "svc" []

/-- A flask-app entry that a failed flush will lose. -/
def eLost : JVal := flaskMkEntry "t3" "INFO" "lost" "fsvc" none none

/-- Keyword arguments containing a key named `level`. -/
def kwLevel : List (String × JVal) := [("level", JVal.str "X")]

/-- Keyword arguments containing a key named `message`. -/
def kwMessage : List (String × JVal) := [("message", JVal.str "Y")]

/- ## Helper lemmas -/

/-- Dropping a satisfied-run twice is the same as dropping it once. -/
theorem dropWhile_dropWhile {α : Type} (p : α → Bool) (l : List α) :
    (l.dropWhile p).dropWhile p = l.dropWhile p := by
  induction l with
  | nil => rfl
  | cons x xs ih =>
      by_cases h : p x = true
      · simp [List.dropWhile_cons, h, ih]
      · simp [List.dropWhile_cons, h]

/-- Python `rstrip` is idempotent. -/
theorem rstripSlash_idem (s : String) : rstripSlash (rstripSlash s) = rstripSlash s := by
  unfold rstripSlash
  simp [List.reverse_reverse, dropWhile_dropWhile]

/-- A canonical `flush` called with the lock free, on a non-empty buffer,
whose send fails, re-adds the whole snapshot after the entries appended
during the send, and reports the snapshot as the single attempted batch. -/
theorem flush_failed (buffer during : List JVal) (o : SendOutcome)
    (hfail : delivered o = false) (hne : buffer.isEmpty = false) :
    flush false buffer o during = some (during ++ buffer, [buffer]) := by
  cases o with
  | response s =>
      simp only [delivered] at hfail
      simp [flush, hne, hfail]
  | exception => simp [flush, hne]

/-- A list with a non-empty suffix is non-empty. -/
theorem append_isEmpty_false (during buffer : List JVal)
    (hne : buffer.isEmpty = false) : (during ++ buffer).isEmpty = false := by
  cases buffer with
  | nil => simp at hne
  | cons b bs => cases during <;> simp

/- ## Claim theorems -/

/-- C1: the claim says the `log()` call whose append brings the buffer to
exactly `batch_size` triggers exactly one send of those entries in order
and leaves the buffer empty.  In the code that call never completes and
sends nothing: with `batch_size = 2`, the first call returns with the entry
buffered and no send, while the second call reaches the threshold and
invokes `flush()` while still inside `with self.lock:`; `flush` immediately
re-acquires the same non-reentrant `threading.Lock` and blocks forever,
before the snapshot, the clear, or the POST. -/
theorem C1_threshold_call_deadlocks_without_send :
    log cfg2 false [] "t1" "INFO" "old" [] (SendOutcome.response 200)
      = some ([eOld], [])
    ∧ log cfg2 false [eOld] "t2" "INFO" "new" [] (SendOutcome.response 200)
      = none :=
  ⟨rfl, rfl⟩

/-- C2 counterexample: the claim says every flush attempt that fails
re-inserts every entry of the attempted batch.  The flask-app copy of
`flush` refutes it: on a raised transport error the attempted batch
`[eLost]` is reported only to stderr and the buffer stays empty — the entry
is lost, not re-inserted. -/
theorem C2_counterexample_flask_drops_failed_batch :
    flaskFlush false [eLost] FlaskOutcome.raised = some ([], [[eLost]]) :=
  rfl

/-- C2 amended: in the canonical logger a failed flush attempt (non-2xx
status or transport exception) re-inserts every entry of the attempted
batch into the buffer (at the tail), so a subsequent successful flush sends
a batch containing each previously-failed entry; the flask-app copy instead
drops failed batches. -/
theorem C2_amended_canonical_requeues_all (buffer during : List JVal)
    (o : SendOutcome) (hfail : delivered o = false)
    (hne : buffer.isEmpty = false) :
    flush false buffer o during = some (during ++ buffer, [buffer])
    ∧ buffer ⊆ during ++ buffer
    ∧ flush false (during ++ buffer) (SendOutcome.response 200) []
        = some ([], [during ++ buffer]) := by
  refine ⟨flush_failed buffer during o hfail hne,
          List.subset_append_right during buffer, ?_⟩
  simp [flush, append_isEmpty_false during buffer hne]

/-- C2 witness: one failed flush of one entry while another entry arrives,
then a successful flush delivering both. -/
theorem C2_witness :
    delivered SendOutcome.exception = false
    ∧ ([eOld] : List JVal).isEmpty = false
    ∧ (flush false [eOld] SendOutcome.exception [eNew]
         = some ([eNew] ++ [eOld], [[eOld]])
       ∧ [eOld] ⊆ [eNew] ++ [eOld]
       ∧ flush false ([eNew] ++ [eOld]) (SendOutcome.response 200) []
           = some ([], [[eNew] ++ [eOld]])) :=
  ⟨rfl, rfl,
   C2_amended_canonical_requeues_all [eOld] [eNew] SendOutcome.exception rfl rfl⟩

/-- C3: the claim says every `log()` call returns without blocking, in
particular the one whose append reaches the batch-size threshold.  In the
code a sub-threshold call does return, but the threshold call deadlocks:
with `batch_size = 1` the very first `log()` call hangs forever on the
nested acquisition of the non-reentrant instance lock. -/
theorem C3_threshold_call_never_returns :
    log cfg1 false [] "t1" "INFO" "old" [] (SendOutcome.response 200) = none
    ∧ log cfg2 false [] "t1" "INFO" "old" [] (SendOutcome.response 200)
      = some ([eOld], []) :=
  ⟨rfl, rfl⟩

/-- C4 counterexample: the claim says failed entries are re-inserted at the
head, preceding entries appended during the failed send.  In the code,
after a failed send of the snapshot `[eOld]` while `eNew` arrived, the
buffer is `[eNew, eOld]` (requeue via `self.buffer.extend`, i.e. at the
tail): the newer entry precedes the failed one, the opposite order. -/
theorem C4_counterexample_requeue_goes_to_tail :
    (flush false [eOld] SendOutcome.exception [eNew]).map
        (fun r => r.fst.map entryMessageStr)
      = some [some "new", some "old"]
    ∧ (some [some "new", some "old"] : Option (List (Option String)))
        ≠ some [some "old", some "new"] :=
  ⟨rfl, by decide⟩

/-- C4 amended: on every delivery failure the entries of the failed
snapshot are re-inserted at the TAIL of the buffer (`self.buffer.extend`),
so entries appended during the failed send precede the failed entries. -/
theorem C4_amended_requeue_at_tail (buffer during : List JVal)
    (o : SendOutcome) (hfail : delivered o = false)
    (hne : buffer.isEmpty = false) :
    flush false buffer o during = some (during ++ buffer, [buffer]) :=
  flush_failed buffer during o hfail hne

/-- C4 witness: a 500 response with one entry in flight and one newer
entry appended during the send. -/
theorem C4_witness :
    delivered (SendOutcome.response 500) = false
    ∧ ([eOld] : List JVal).isEmpty = false
    ∧ flush false [eOld] (SendOutcome.response 500) [eNew]
        = some ([eNew] ++ [eOld], [[eOld]]) :=
  ⟨rfl, rfl,
   C4_amended_requeue_at_tail [eOld] [eNew] (SendOutcome.response 500) rfl rfl⟩

/-- C5: the claim says the logger exposes a `close()` operation flushing
the remaining entries once, idempotently.  Neither copy of the class
defines `close` at all (calling it raises `AttributeError`); the nearest
mechanism is the `atexit`-registered `flush`, which does send the N
remaining entries in one batch and, called a second time on the now-empty
buffer, produces no further send. -/
theorem C5_no_close_method :
    "close" ∉ canonicalMethods
    ∧ "close" ∉ flaskLoggerMethods
    ∧ flush false [eOld, eNew] (SendOutcome.response 200) []
        = some ([], [[eOld, eNew]])
    ∧ flush false [] (SendOutcome.response 200) [] = some ([], []) :=
  ⟨by decide, by decide, rfl, rfl⟩

/-- C6 counterexample: the claim says construction fails with a
configuration error, producing no usable logger, whenever `api_key`,
`project_slug`, or `service_name` is empty.  The flask-app constructor
performs no validation: with all fields empty it still produces a logger
on which `_log` happily buffers an entry. -/
theorem C6_counterexample_flask_accepts_empty_config :
    (flaskInit "" "" "" "" 100 5).api_key = ""
    ∧ (flaskInit "" "" "" "" 100 5).project_slug = ""
    ∧ flaskLog (flaskInit "" "" "" "" 100 5) false [] TimerState.unset
        "t" "INFO" "hello" none none FlaskOutcome.ok
      = some ([flaskMkEntry "t" "INFO" "hello" "" none none],
              TimerState.armed 5) :=
  ⟨rfl, rfl, rfl⟩

/-- C6 amended: the canonical constructor succeeds exactly when `api_key`,
`project_slug` and `service_name` are all non-empty, raising `ValueError`
otherwise; the flask-app inlined constructor performs no validation and
constructs a logger for any argument values. -/
theorem C6_amended_canonical_validates_iff (k u p s : String) (B fi : Nat) :
    initOk k u p s B fi = true ↔ (k ≠ "" ∧ p ≠ "" ∧ s ≠ "") := by
  unfold initOk DevSmithLogger.init
  by_cases h1 : k = "" <;> by_cases h2 : p = "" <;> by_cases h3 : s = "" <;>
    simp [h1, h2, h3]

/-- C7: the claim says every entry produced by `log()` carries a `tags`
field defaulting to the empty sequence, serialized with each entry.  The
canonical `log` builds entries with exactly the keys `timestamp`, `level`,
`message`, `service` and `context` — no `tags` key at all (contradicting
the repository's own `logger_test.py`); only the flask-app `_log` adds
`tags`, defaulting to the empty array. -/
theorem C7_canonical_entry_has_no_tags :
    entryKeys (mkEntry "t" "info" "m" "svc" [])
      = ["timestamp", "level", "message", "service", "context"]
    ∧ "tags" ∉ entryKeys (mkEntry "t" "info" "m" "svc" [])
    ∧ entryField "tags" (flaskMkEntry "t" "INFO" "m" "fsvc" none none)
      = some (JVal.arr []) :=
  ⟨rfl, by decide, rfl⟩

/-- C8 counterexample: the claim says that after each firing the timer is
rescheduled for another `flush_interval` regardless of whether the tick did
any work.  A canonical tick that finds work deadlocks instead: with a
non-empty buffer, `flush_periodically` calls `flush()` inside
`with self.lock:` and never reaches its `self._start_timer()` line, so the
timer is not rescheduled at all. -/
theorem C8_counterexample_working_tick_never_reschedules :
    flushPeriodically 5 [eOld] = TickResult.deadlocked
    ∧ TickResult.deadlocked ≠ TickResult.rescheduled 5 :=
  ⟨rfl, by decide⟩

/-- C8 amended: a canonical timer firing that finds the buffer empty
reschedules itself for another `flush_interval` (fixed cadence); a firing
that finds work deadlocks and never reschedules; and in the flask-app copy
the timer is not self-rescheduling at all — every sub-threshold `log()`
call cancels the pending timer and re-arms it for a full `flush_interval`
(an idle-reset window re-armed by `log()`). -/
theorem C8_amended_cadence_and_flask_rearm (fi : Nat) (cfg : FlaskConfig)
    (buffer : List JVal) (timer : TimerState) (ts level message : String)
    (context : Option (List (String × JVal))) (tags : Option (List String))
    (o : FlaskOutcome) (h : buffer.length + 1 < cfg.buffer_size) :
    flushPeriodically fi [] = TickResult.rescheduled fi
    ∧ flaskLog cfg false buffer timer ts level message context tags o
        = some (buffer ++ [flaskMkEntry ts level message cfg.service_name context tags],
                TimerState.armed cfg.flush_interval) := by
  refine ⟨rfl, ?_⟩
  have hlt : ¬ cfg.buffer_size ≤ buffer.length + 1 := by omega
  simp [flaskLog, hlt]

/-- C8 witness: a tick on an empty buffer and a first flask-app log call
below the threshold. -/
theorem C8_witness :
    ([] : List JVal).length + 1 < fcfg.buffer_size
    ∧ (flushPeriodically 5 [] = TickResult.rescheduled 5
       ∧ flaskLog fcfg false [] TimerState.unset "t" "INFO" "m" none none
           FlaskOutcome.ok
         = some ([] ++ [flaskMkEntry "t" "INFO" "m" fcfg.service_name none none],
                 TimerState.armed fcfg.flush_interval)) :=
  ⟨by decide,
   C8_amended_cadence_and_flask_rearm 5 fcfg [] TimerState.unset "t" "INFO" "m"
     none none FlaskOutcome.ok (by decide)⟩

/-- C9: the canonical constructor strips all trailing `/` characters from
`api_url`, so a logger built with a slash-suffixed URL is the very same
configuration as one built with the stripped value, and every request goes
to the stripped URL followed by `/api/logs/batch`. -/
theorem C9_trailing_slashes_stripped (k u p s : String) (B fi : Nat) :
    DevSmithLogger.init k u p s B fi
      = DevSmithLogger.init k (rstripSlash u) p s B fi
    ∧ initRequestUrl k u p s B fi
        = (if k = "" ∨ p = "" ∨ s = "" then none
           else some (rstripSlash u ++ "/api/logs/batch")) := by
  unfold initRequestUrl DevSmithLogger.init
  by_cases h1 : k = "" <;> by_cases h2 : p = "" <;> by_cases h3 : s = "" <;>
    simp [h1, h2, h3, rstripSlash_idem, requestUrl, Except.toOption]

/-- C10: context reaches `log`/`debug`/`info`/`warn`/`error` only through
`**context` keyword arguments; a keyword named `level` or `message` in a
call to `log` (respectively `message` in a call to a convenience method)
collides with the like-named positional parameter, so Python raises
`TypeError` at argument binding and the buffer receives no entry. -/
theorem C10_kwarg_collision_raises (cfg : Config) (held : Bool)
    (buffer : List JVal) (ts level message : String)
    (kwargs kwargs2 : List (String × JVal)) (o : SendOutcome)
    (h1 : "level" ∈ kwargs.map Prod.fst ∨ "message" ∈ kwargs.map Prod.fst)
    (h2 : "message" ∈ kwargs2.map Prod.fst) :
    callLog cfg held buffer ts level message kwargs o
      = CallResult.typeError buffer
    ∧ callDebug cfg held buffer ts message kwargs2 o
      = CallResult.typeError buffer
    ∧ callInfo cfg held buffer ts message kwargs2 o
      = CallResult.typeError buffer
    ∧ callWarn cfg held buffer ts message kwargs2 o
      = CallResult.typeError buffer
    ∧ callError cfg held buffer ts message kwargs2 o
      = CallResult.typeError buffer := by
  have hA : kwargs.any (fun kv => kv.fst == "level" || kv.fst == "message")
      = true := by
    rw [List.any_eq_true]
    rcases h1 with h | h <;>
      (rcases List.mem_map.mp h with ⟨kv, hm, hk⟩; exact ⟨kv, hm, by simp [hk]⟩)
  have hB : kwargs2.any (fun kv => kv.fst == "message") = true := by
    rw [List.any_eq_true]
    rcases List.mem_map.mp h2 with ⟨kv, hm, hk⟩
    exact ⟨kv, hm, by simp [hk]⟩
  refine ⟨?_, ?_, ?_, ?_, ?_⟩ <;>
    simp [callLog, callDebug, callInfo, callWarn, callError, hA, hB]

/-- C10 witness: a `log` call whose context carries a `level` key and
convenience calls whose context carries a `message` key. -/
theorem C10_witness :
    ("level" ∈ kwLevel.map Prod.fst ∨ "message" ∈ kwLevel.map Prod.fst)
    ∧ "message" ∈ kwMessage.map Prod.fst
    ∧ (callLog cfg100 false [] "t" "INFO" "m" kwLevel (SendOutcome.response 200)
         = CallResult.typeError []
       ∧ callDebug cfg100 false [] "t" "m" kwMessage (SendOutcome.response 200)
         = CallResult.typeError []
       ∧ callInfo cfg100 false [] "t" "m" kwMessage (SendOutcome.response 200)
         = CallResult.typeError []
       ∧ callWarn cfg100 false [] "t" "m" kwMessage (SendOutcome.response 200)
         = CallResult.typeError []
       ∧ callError cfg100 false [] "t" "m" kwMessage (SendOutcome.response 200)
         = CallResult.typeError []) :=
  ⟨by decide, by decide,
   C10_kwarg_collision_raises cfg100 false [] "t" "INFO" "m" kwLevel kwMessage
     (SendOutcome.response 200) (by decide) (by decide)⟩

end DevSmith
